import Mathlib

/-!
Verification of the pharma downtime monitoring core (`main.py`,
`app/core/config.py`, `app/core/ws_manager.py`, `app/ml/model.py`,
`app/services/database_service.py`).

Real numbers of the source are modelled exactly as rationals (`ℚ`);
decimal literals such as `0.3` denote the exact rational `3/10`.
Channel statuses are modelled as the strings the source uses
(`"online"`, `"simulated"`, `"error"`, `"offline"`). Python functions
that catch all exceptions internally are modelled as total functions;
a dictionary lookup that can raise `KeyError` is modelled with
`Option`, the surrounding `try/except` as the `none` branch.
-/

namespace PharmaDowntime

/-- The six keys of the module-level `sensor_data` dictionary in `main.py`. -/
inductive Channel
  | temperature
  | machine_temperature
  | humidity
  | vibration
  | current
  | load
deriving DecidableEq

/-- One entry of `sensor_data`: the `"value"` and `"status"` fields.
The constant display-only fields `"unit"` and `"type"` are omitted:
no code path reads or writes them after module load. -/
structure ChannelEntry where
  value : ℚ
  status : String
deriving DecidableEq

/-- The `sensor_data` dictionary. A key absent from the dictionary
(whose lookup would raise `KeyError`) is modelled by `none`. -/
abbrev SensorData := Channel → Option ChannelEntry

namespace settings

/-- `Settings.THRESHOLDS["temperature"]` in `app/core/config.py`. -/
def temperature_normal_min : ℚ := 20.0

def temperature_warning_max : ℚ := 30.0

def temperature_critical_max : ℚ := 35.0

/-- `Settings.THRESHOLDS["machine_temperature"]`. -/
def machine_temperature_normal_min : ℚ := 65.0

def machine_temperature_warning_max : ℚ := 85.0

def machine_temperature_critical_max : ℚ := 90.0

/-- `Settings.THRESHOLDS["vibration"]`. -/
def vibration_normal_max : ℚ := 2.5

def vibration_warning_max : ℚ := 4.0

def vibration_critical_max : ℚ := 6.0

/-- `Settings.THRESHOLDS["humidity"]`. -/
def humidity_warning_min : ℚ := 30.0

def humidity_warning_max : ℚ := 70.0

/-- `Settings.THRESHOLDS["current"]`. -/
def current_warning_max : ℚ := 8.0

def current_critical_max : ℚ := 10.0

end settings

/-- Shift derivation from the wall-clock hour, `main.py` lines 361-367:
day = 1 for hours 6-13, evening = 2 for hours 14-21, night = 3 otherwise. -/
def shift_of_hour (hour : ℕ) : ℕ :=
  if 6 ≤ hour ∧ hour < 14 then 1
  else if 14 ≤ hour ∧ hour < 22 then 2
  else 3

/-- Ambient-temperature contribution to the rule-based risk,
`main.py` lines 386-393. -/
def temperature_penalty (amb_temp : ℚ) : ℚ :=
  if amb_temp > settings.temperature_critical_max then 0.3
  else if amb_temp > settings.temperature_warning_max then 0.15
  else if amb_temp < settings.temperature_normal_min then 0.1
  else 0

/-- Machine-temperature contribution, `main.py` lines 395-402. -/
def machine_temperature_penalty (machine_temp : ℚ) : ℚ :=
  if machine_temp > settings.machine_temperature_critical_max then 0.4
  else if machine_temp > settings.machine_temperature_warning_max then 0.2
  else if machine_temp < settings.machine_temperature_normal_min then 0.15
  else 0

/-- Humidity contribution, `main.py` lines 404-409. -/
def humidity_penalty (humidity : ℚ) : ℚ :=
  if humidity > settings.humidity_warning_max then 0.15
  else if humidity < settings.humidity_warning_min then 0.1
  else 0

/-- Vibration contribution, `main.py` lines 411-418. -/
def vibration_penalty (vibration : ℚ) : ℚ :=
  if vibration > settings.vibration_critical_max then 0.5
  else if vibration > settings.vibration_warning_max then 0.25
  else if vibration > settings.vibration_normal_max then 0.1
  else 0

/-- Current contribution, `main.py` lines 420-425. -/
def current_penalty (current : ℚ) : ℚ :=
  if current > settings.current_critical_max then 0.3
  else if current > settings.current_warning_max then 0.15
  else 0

/-- Shift contribution, `main.py` lines 427-431: night adds 0.08,
evening adds 0.03, day adds nothing. -/
def shift_penalty (shift : ℕ) : ℚ :=
  if shift = 3 then 0.08
  else if shift = 2 then 0.03
  else 0

/-- The rule-based fallback risk score, `main.py` lines 383-431:
the sum of the per-channel penalties and the shift penalty,
starting from `risk_score = 0.0`. -/
def rule_based_risk (amb_temp machine_temp humidity vibration current : ℚ)
    (shift : ℕ) : ℚ :=
  temperature_penalty amb_temp + machine_temperature_penalty machine_temp +
    humidity_penalty humidity + vibration_penalty vibration +
    current_penalty current + shift_penalty shift

/-- `SensorManager.calculate_downtime_risk`, `main.py` lines 350-437.
The five channel-value lookups happen first; a missing key makes the
outer `except` return the default `0.2`. The inner `try` around the ML
predictor is modelled by `ml : Option ℚ`: `some p` is a
`predict_downtime` call that RETURNED, with `downtime_probability = p`
used as the risk verbatim — this includes the sentinel `p = 0.0` that
`predict_downtime` returns when it catches an error internally; `none`
is a call of the ML path that RAISED into the inner `except` (a
failing import, or `predict_downtime` raising outside its own `try`,
e.g. its unguarded `train_model()` call on a missing model file), after
which the rule-based score is computed. The result is clamped by
`min(1.0, max(0.0, risk_score))`. -/
def calculate_downtime_risk (data : SensorData) (hour : ℕ) (ml : Option ℚ) : ℚ :=
  match data Channel.temperature, data Channel.machine_temperature,
      data Channel.humidity, data Channel.vibration, data Channel.current with
  | some t, some mt, some hu, some vb, some cu =>
      let shift := shift_of_hour hour
      let risk_score :=
        match ml with
        | some p => p
        | none => rule_based_risk t.value mt.value hu.value vb.value cu.value shift
      min 1 (max 0 risk_score)
  | _, _, _, _, _ => 0.2

/-- `SensorManager.get_status_from_risk`, `main.py` lines 439-446. -/
def get_status_from_risk (risk_score : ℚ) : String :=
  if risk_score ≥ 0.7 then "CRITICAL"
  else if risk_score ≥ 0.4 then "WARNING"
  else "OK"

/-- A fully populated `sensor_data` dictionary with the given entries. -/
def mkSensorData (t mt hu vb cu ld : ChannelEntry) : SensorData := fun c =>
  match c with
  | Channel.temperature => some t
  | Channel.machine_temperature => some mt
  | Channel.humidity => some hu
  | Channel.vibration => some vb
  | Channel.current => some cu
  | Channel.load => some ld

/-- C1: for every reading (every combination of channel values, shift
and ML success or failure), the risk score returned by
`calculate_downtime_risk` lies in the closed interval `[0, 1]`. -/
theorem calculate_downtime_risk_mem_unit_interval
    (data : SensorData) (hour : ℕ) (ml : Option ℚ) :
    0 ≤ calculate_downtime_risk data hour ml ∧
      calculate_downtime_risk data hour ml ≤ 1 := by
  unfold calculate_downtime_risk
  rcases data Channel.temperature with _ | t <;>
    rcases data Channel.machine_temperature with _ | mt <;>
    rcases data Channel.humidity with _ | hu <;>
    rcases data Channel.vibration with _ | vb <;>
    rcases data Channel.current with _ | cu <;>
    exact ⟨by norm_num, by norm_num⟩

/-- C2: `get_status_from_risk` returns `CRITICAL` exactly when the
score is at least 0.7, `WARNING` exactly when it is in `[0.4, 0.7)`,
`OK` exactly when it is below 0.4, and never anything else. -/
theorem get_status_from_risk_thresholds (s : ℚ) :
    (get_status_from_risk s = "CRITICAL" ↔ 0.7 ≤ s) ∧
      (get_status_from_risk s = "WARNING" ↔ 0.4 ≤ s ∧ s < 0.7) ∧
      (get_status_from_risk s = "OK" ↔ s < 0.4) ∧
      (get_status_from_risk s = "CRITICAL" ∨ get_status_from_risk s = "WARNING" ∨
        get_status_from_risk s = "OK") := by
  unfold get_status_from_risk
  split_ifs with h1 h2
  · refine ⟨⟨fun _ => h1, fun _ => rfl⟩, ⟨fun h => absurd h (by decide), ?_⟩,
      ⟨fun h => absurd h (by decide), ?_⟩, Or.inl rfl⟩
    · rintro ⟨_, h⟩
      exact absurd h1 (not_le.mpr h)
    · intro h
      exact absurd h1 (not_le.mpr (lt_of_lt_of_le h (by norm_num)))
  · refine ⟨⟨fun h => absurd h (by decide), fun h => absurd h h1⟩,
      ⟨fun _ => ⟨h2, not_le.mp h1⟩, fun _ => rfl⟩,
      ⟨fun h => absurd h (by decide), ?_⟩, Or.inr (Or.inl rfl)⟩
    intro h
    exact absurd h2 (not_le.mpr h)
  · refine ⟨⟨fun h => absurd h (by decide), fun h => absurd h h1⟩,
      ⟨fun h => absurd h (by decide), ?_⟩,
      ⟨fun _ => not_le.mp h2, fun _ => rfl⟩, Or.inr (Or.inr rfl)⟩
    rintro ⟨h, _⟩
    exact absurd h h2

/-- The concrete counterexample state for C3: the ambient-temperature
channel is `offline` with stored value 40 (above the critical threshold
35), every other channel sits in its normal band at hour 10 (day shift,
no shift penalty). -/
def offlineTempData : SensorData :=
  mkSensorData ⟨40, "offline"⟩ ⟨75, "simulated"⟩ ⟨55, "simulated"⟩
    ⟨1.5, "simulated"⟩ ⟨3.5, "simulated"⟩ ⟨75, "simulated"⟩

/-- The same state with the offline channel's signal absent: the
`temperature` key removed from the dictionary. -/
def offlineTempDataAbsent : SensorData := fun c =>
  match c with
  | Channel.temperature => none
  | c2 => offlineTempData c2

/-- C3 counterexample: an `offline` ambient-temperature channel with
stored value 40 contributes its full critical penalty 0.3 to the
rule-based score, so the score (0.3) differs from the score computed
with the channel's signal absent (the default 0.2) and from the
zero-penalty score (0): the offline channel does not contribute zero
penalty. -/
theorem offline_channel_full_penalty_counterexample :
    calculate_downtime_risk offlineTempData 10 none = 0.3 ∧
      calculate_downtime_risk offlineTempDataAbsent 10 none = 0.2 ∧
      calculate_downtime_risk offlineTempData 10 none ≠
        calculate_downtime_risk offlineTempDataAbsent 10 none ∧
      calculate_downtime_risk offlineTempData 10 none ≠ 0 := by
  have e1 : calculate_downtime_risk offlineTempData 10 none = 0.3 := by
    norm_num [calculate_downtime_risk, offlineTempData, mkSensorData,
      rule_based_risk, temperature_penalty, machine_temperature_penalty,
      humidity_penalty, vibration_penalty, current_penalty, shift_penalty,
      shift_of_hour, settings.temperature_critical_max,
      settings.machine_temperature_critical_max,
      settings.machine_temperature_warning_max,
      settings.machine_temperature_normal_min,
      settings.temperature_warning_max, settings.temperature_normal_min,
      settings.humidity_warning_max, settings.humidity_warning_min,
      settings.vibration_critical_max, settings.vibration_warning_max,
      settings.vibration_normal_max, settings.current_critical_max,
      settings.current_warning_max, min_def, max_def]
  have e2 : calculate_downtime_risk offlineTempDataAbsent 10 none = 0.2 := rfl
  exact ⟨e1, e2, by rw [e1, e2]; norm_num, by rw [e1]; norm_num⟩

/-- C3 amended: `calculate_downtime_risk` never consults a channel's
status. Replacing every channel's status by an arbitrary string
(in particular `"offline"`) leaves the risk score unchanged: each
channel contributes the penalty determined by its stored value
whatever its status is. -/
theorem calculate_downtime_risk_ignores_status
    (t mt hu vb cu ld : ChannelEntry) (hour : ℕ) (ml : Option ℚ) (st : String) :
    calculate_downtime_risk
        (mkSensorData ⟨t.value, st⟩ ⟨mt.value, st⟩ ⟨hu.value, st⟩
          ⟨vb.value, st⟩ ⟨cu.value, st⟩ ⟨ld.value, st⟩) hour ml =
      calculate_downtime_risk (mkSensorData t mt hu vb cu ld) hour ml := rfl

/-- C9: every per-channel penalty of the rule-based score is
non-negative everywhere; once a channel exceeds its configured warning
threshold the penalty is monotonically non-decreasing in the channel's
value; and the additive shift penalty is strictly ordered
night > evening > day. -/
theorem rule_based_penalties_shape (v v1 v2 : ℚ) (h12 : v1 ≤ v2) :
    (0 ≤ temperature_penalty v ∧ 0 ≤ machine_temperature_penalty v ∧
        0 ≤ humidity_penalty v ∧ 0 ≤ vibration_penalty v ∧ 0 ≤ current_penalty v) ∧
      (settings.temperature_warning_max < v1 →
        temperature_penalty v1 ≤ temperature_penalty v2) ∧
      (settings.machine_temperature_warning_max < v1 →
        machine_temperature_penalty v1 ≤ machine_temperature_penalty v2) ∧
      (settings.humidity_warning_max < v1 →
        humidity_penalty v1 ≤ humidity_penalty v2) ∧
      (settings.vibration_warning_max < v1 →
        vibration_penalty v1 ≤ vibration_penalty v2) ∧
      (settings.current_warning_max < v1 →
        current_penalty v1 ≤ current_penalty v2) ∧
      shift_penalty 1 < shift_penalty 2 ∧ shift_penalty 2 < shift_penalty 3 := by
  refine ⟨⟨?_, ?_, ?_, ?_, ?_⟩, ?_, ?_, ?_, ?_, ?_, ?_, ?_⟩ <;>
    (try intro h1) <;>
    simp only [temperature_penalty, machine_temperature_penalty, humidity_penalty,
      vibration_penalty, current_penalty, shift_penalty,
      settings.temperature_critical_max, settings.temperature_warning_max,
      settings.temperature_normal_min, settings.machine_temperature_critical_max,
      settings.machine_temperature_warning_max, settings.machine_temperature_normal_min,
      settings.humidity_warning_max, settings.humidity_warning_min,
      settings.vibration_critical_max, settings.vibration_warning_max,
      settings.vibration_normal_max, settings.current_critical_max,
      settings.current_warning_max] at * <;>
    (try split_ifs) <;>
    linarith

/-- C9 witness: the shape theorem instantiated at `v = 0`, `v1 = 100`,
`v2 = 200`, which exceed every warning threshold. -/
theorem rule_based_penalties_shape_witness :
    0 ≤ temperature_penalty 0 ∧
      temperature_penalty 100 ≤ temperature_penalty 200 ∧
      machine_temperature_penalty 100 ≤ machine_temperature_penalty 200 ∧
      humidity_penalty 100 ≤ humidity_penalty 200 ∧
      vibration_penalty 100 ≤ vibration_penalty 200 ∧
      current_penalty 100 ≤ current_penalty 200 ∧
      shift_penalty 1 < shift_penalty 2 ∧ shift_penalty 2 < shift_penalty 3 := by
  have h := rule_based_penalties_shape 0 100 200 (by norm_num)
  refine ⟨h.1.1, h.2.1 ?_, h.2.2.1 ?_, h.2.2.2.1 ?_, h.2.2.2.2.1 ?_,
      h.2.2.2.2.2.1 ?_, h.2.2.2.2.2.2.1, h.2.2.2.2.2.2.2⟩ <;>
    norm_num [settings.temperature_warning_max,
      settings.machine_temperature_warning_max, settings.humidity_warning_max,
      settings.vibration_warning_max, settings.current_warning_max]

/-- C10: when the whole risk computation fails (any of the five needed
channel entries is missing from `sensor_data`, so the lookup raises),
`calculate_downtime_risk` returns the fixed default 0.2, which
`get_status_from_risk` classifies as `OK`, never as `WARNING` or
`CRITICAL`. -/
theorem risk_total_failure_reports_low
    (data : SensorData) (hour : ℕ) (ml : Option ℚ)
    (h : data Channel.temperature = none ∨ data Channel.machine_temperature = none ∨
      data Channel.humidity = none ∨ data Channel.vibration = none ∨
      data Channel.current = none) :
    calculate_downtime_risk data hour ml = 0.2 ∧
      get_status_from_risk (calculate_downtime_risk data hour ml) = "OK" ∧
      get_status_from_risk (calculate_downtime_risk data hour ml) ≠ "WARNING" ∧
      get_status_from_risk (calculate_downtime_risk data hour ml) ≠ "CRITICAL" := by
  have e : calculate_downtime_risk data hour ml = 0.2 := by
    unfold calculate_downtime_risk
    rcases ht : data Channel.temperature with _ | t <;>
      rcases hm : data Channel.machine_temperature with _ | mt <;>
      rcases hh : data Channel.humidity with _ | hu <;>
      rcases hv : data Channel.vibration with _ | vb <;>
      rcases hc : data Channel.current with _ | cu <;>
      simp_all
  rw [e]
  have s : get_status_from_risk 0.2 = "OK" := by
    norm_num [get_status_from_risk]
  rw [s]
  exact ⟨rfl, rfl, by decide, by decide⟩

/-- C10 witness: the total-failure theorem at the empty sensor
dictionary. -/
theorem risk_total_failure_reports_low_witness :
    calculate_downtime_risk (fun _ => none) 0 none = 0.2 ∧
      get_status_from_risk (calculate_downtime_risk (fun _ => none) 0 none) = "OK" ∧
      get_status_from_risk (calculate_downtime_risk (fun _ => none) 0 none) ≠ "WARNING" ∧
      get_status_from_risk (calculate_downtime_risk (fun _ => none) 0 none) ≠ "CRITICAL" :=
  risk_total_failure_reports_low (fun _ => none) 0 none (Or.inl rfl)

/-- Python's `round(x, nd)` modelled exactly on rationals: round to
`nd` decimal digits with ties to even. -/
def pyRound (x : ℚ) (nd : ℕ) : ℚ :=
  let y := x * 10 ^ nd
  let f := Rat.floor y
  let r := y - (f : ℚ)
  let i := if r < 1 / 2 then f
    else if r > 1 / 2 then f + 1
    else if f % 2 = 0 then f else f + 1
  (i : ℚ) / 10 ^ nd

/-- The mutable state touched by `SensorManager.read_sensors` in
hardware mode: the six `sensor_data` entries plus the consecutive
whole-cycle failure counter `self.read_errors`. -/
structure SensorState where
  temperature : ChannelEntry
  machine_temperature : ChannelEntry
  humidity : ChannelEntry
  vibration : ChannelEntry
  current : ChannelEntry
  load : ChannelEntry
  read_errors : ℕ
deriving DecidableEq

/-- The raw results of one hardware polling cycle.
`read_real_dht22` yields the ambient temperature and the humidity
(each `None` on a read failure), `read_real_vibration` the vibration
magnitude, `read_real_current` the current together with the derived
load percentage (both or neither). The machine temperature has no
physical sensor and always comes from the simulator. -/
structure HardwareRead where
  amb_temp : Option ℚ
  humidity : Option ℚ
  vibration : Option ℚ
  current_load : Option (ℚ × ℚ)
  machine_temp_sim : ℚ
deriving DecidableEq

/-- One call of `read_sensors` in hardware mode either completes the
update block or raises somewhere inside it (the outer `except` branch). -/
inductive ReadOutcome
  | ok (r : HardwareRead)
  | failure
deriving DecidableEq

/-- `SensorManager.read_sensors`, hardware branch, `main.py` lines
276-327. On a completed cycle each channel with a present reading goes
`online` with the rounded value, a channel whose reading is `None`
keeps its previous value with status `error`, the machine temperature
is always `simulated`, and `read_errors` resets to 0. On a raised
cycle `read_errors` increments and, once it reaches 3, every channel
in `sensor_data` is marked `offline`. -/
def read_sensors_hw (s : SensorState) (o : ReadOutcome) : SensorState :=
  match o with
  | ReadOutcome.ok r =>
      { temperature :=
          match r.amb_temp with
          | some t => ⟨pyRound t 1, "online"⟩
          | none => ⟨s.temperature.value, "error"⟩
        humidity :=
          match r.humidity with
          | some h => ⟨pyRound h 1, "online"⟩
          | none => ⟨s.humidity.value, "error"⟩
        vibration :=
          match r.vibration with
          | some v => ⟨pyRound v 2, "online"⟩
          | none => ⟨s.vibration.value, "error"⟩
        current :=
          match r.current_load with
          | some cl => ⟨pyRound cl.1 2, "online"⟩
          | none => ⟨s.current.value, "error"⟩
        load :=
          match r.current_load with
          | some cl => ⟨pyRound cl.2 1, "online"⟩
          | none => ⟨s.load.value, "error"⟩
        machine_temperature := ⟨r.machine_temp_sim, "simulated"⟩
        read_errors := 0 }
  | ReadOutcome.failure =>
      let e := s.read_errors + 1
      if e ≥ 3 then
        { temperature := ⟨s.temperature.value, "offline"⟩
          machine_temperature := ⟨s.machine_temperature.value, "offline"⟩
          humidity := ⟨s.humidity.value, "offline"⟩
          vibration := ⟨s.vibration.value, "offline"⟩
          current := ⟨s.current.value, "offline"⟩
          load := ⟨s.load.value, "offline"⟩
          read_errors := e }
      else
        { s with read_errors := e }

/-- The module-level initial `sensor_data` of `main.py` lines 64-71,
with `read_errors = 0` as set by `SensorManager.__init__`. -/
def initSensorState : SensorState :=
  { temperature := ⟨22.5, "offline"⟩
    machine_temperature := ⟨75.0, "offline"⟩
    humidity := ⟨55.0, "offline"⟩
    vibration := ⟨1.8, "offline"⟩
    current := ⟨3.2, "offline"⟩
    load := ⟨75.0, "offline"⟩
    read_errors := 0 }

/-- A fully successful polling cycle: every hardware reading present. -/
def allGoodRead : HardwareRead :=
  { amb_temp := some 23
    humidity := some 50
    vibration := some 2
    current_load := some (3, 37.5)
    machine_temp_sim := 75 }

/-- C5 counterexample: starting from a healthy state (every hardware
channel `online`, machine temperature `simulated`), three consecutive
whole-cycle failures mark EVERY channel `offline`, `humidity`
included — no channel "remains `online`/`simulated` unaffected", so
the circuit-breaker is global, not per-channel. -/
theorem circuit_breaker_offline_all_counterexample :
    (read_sensors_hw initSensorState (ReadOutcome.ok allGoodRead)).humidity.status
        = "online" ∧
      (let s1 := read_sensors_hw initSensorState (ReadOutcome.ok allGoodRead)
       let s4 := read_sensors_hw
         (read_sensors_hw (read_sensors_hw s1 ReadOutcome.failure) ReadOutcome.failure)
         ReadOutcome.failure
       s4.temperature.status = "offline" ∧ s4.machine_temperature.status = "offline" ∧
         s4.humidity.status = "offline" ∧ s4.vibration.status = "offline" ∧
         s4.current.status = "offline" ∧ s4.load.status = "offline" ∧
         ¬(s4.humidity.status = "online" ∨ s4.humidity.status = "simulated")) := by
  refine ⟨rfl, ?_, ?_, ?_, ?_, ?_, ?_, ?_⟩ <;> simp [read_sensors_hw]

/-- C5 amended: the 3-failure circuit-breaker of `read_sensors` is
global. From a state with `read_errors = 0`, one or two whole-cycle
failures leave every status unchanged, and the third failure marks all
six channels `offline` at once; a per-channel read failure inside a
completed cycle instead marks just that channel `error` and resets the
failure counter to 0. -/
theorem circuit_breaker_global_offline (s : SensorState) (r : HardwareRead)
    (h0 : s.read_errors = 0) (hv : r.vibration = none) :
    (let s3 := read_sensors_hw
       (read_sensors_hw (read_sensors_hw s ReadOutcome.failure) ReadOutcome.failure)
       ReadOutcome.failure
     s3.temperature.status = "offline" ∧ s3.machine_temperature.status = "offline" ∧
       s3.humidity.status = "offline" ∧ s3.vibration.status = "offline" ∧
       s3.current.status = "offline" ∧ s3.load.status = "offline" ∧
       s3.read_errors = 3) ∧
      (read_sensors_hw s ReadOutcome.failure).temperature.status
        = s.temperature.status ∧
      (read_sensors_hw s ReadOutcome.failure).humidity.status = s.humidity.status ∧
      (read_sensors_hw s (ReadOutcome.ok r)).vibration.status = "error" ∧
      (read_sensors_hw s (ReadOutcome.ok r)).vibration.value = s.vibration.value ∧
      (read_sensors_hw s (ReadOutcome.ok r)).read_errors = 0 := by
  refine ⟨⟨?_, ?_, ?_, ?_, ?_, ?_, ?_⟩, ?_, ?_, ?_, ?_, ?_⟩ <;>
    simp [read_sensors_hw, h0, hv]

/-- A polling cycle whose vibration read fails while the others
succeed. -/
def noVibrationRead : HardwareRead :=
  { amb_temp := some 23
    humidity := some 50
    vibration := none
    current_load := some (3, 37.5)
    machine_temp_sim := 75 }

/-- C5 amended witness: the circuit-breaker theorem at the initial
state and a cycle with a failed vibration read. -/
theorem circuit_breaker_global_offline_witness :
    (let s3 := read_sensors_hw
       (read_sensors_hw (read_sensors_hw initSensorState ReadOutcome.failure)
         ReadOutcome.failure)
       ReadOutcome.failure
     s3.temperature.status = "offline" ∧ s3.machine_temperature.status = "offline" ∧
       s3.humidity.status = "offline" ∧ s3.vibration.status = "offline" ∧
       s3.current.status = "offline" ∧ s3.load.status = "offline" ∧
       s3.read_errors = 3) ∧
      (read_sensors_hw initSensorState ReadOutcome.failure).temperature.status
        = initSensorState.temperature.status ∧
      (read_sensors_hw initSensorState ReadOutcome.failure).humidity.status
        = initSensorState.humidity.status ∧
      (read_sensors_hw initSensorState (ReadOutcome.ok noVibrationRead)).vibration.status
        = "error" ∧
      (read_sensors_hw initSensorState (ReadOutcome.ok noVibrationRead)).vibration.value
        = initSensorState.vibration.value ∧
      (read_sensors_hw initSensorState (ReadOutcome.ok noVibrationRead)).read_errors
        = 0 :=
  circuit_breaker_global_offline initSensorState noVibrationRead rfl rfl

/-- One entry of `events_log`. Only the `"status"` field steers later
control flow; `"risk"`, `"time"`, `"machine"` and the other fields are
display strings that are never read back by the core. -/
structure Event where
  status : String
deriving DecidableEq

/-- The observable outcome of one `SensorManager.log_event` call,
`main.py` lines 448-508: the updated 50-capped `events_log`, whether
`db_service.save_sensor_reading` was invoked on this tick, and whether
`db_service.save_downtime_event` was invoked on this tick. -/
structure LogResult where
  events_log : List Event
  save_called : Bool
  downtime_saved : Bool
deriving DecidableEq

/-- `SensorManager.log_event` for one tick with the given risk score.
The new event is pushed at the front (`events_log.insert(0, event)`),
the log is truncated to the most recent 50 entries
(`events_log[:50]`), the database save runs exactly when
`len(events_log) % 10 == 0`, and only inside that branch a downtime
event is additionally saved when the status is `"CRITICAL"`. -/
def log_event (log : List Event) (risk_score : ℚ) : LogResult :=
  let status := get_status_from_risk risk_score
  let newLog := (Event.mk status :: log).take 50
  let save := newLog.length % 10 == 0
  ⟨newLog, save, save && (status == "CRITICAL")⟩

/-- The `start_monitoring` loop restricted to its `log_event` step:
one recursive call per tick, threading the event log and counting the
two kinds of persistence calls (sensor-reading saves, downtime saves). -/
def monitor_run : List Event → ℕ → ℕ → List ℚ → List Event × ℕ × ℕ
  | log, sv, dt, [] => (log, sv, dt)
  | log, sv, dt, s :: rest =>
      let r := log_event log s
      monitor_run r.events_log (sv + if r.save_called then 1 else 0)
        (dt + if r.downtime_saved then 1 else 0) rest

/-- A run of consecutive monitoring ticks from an empty `events_log`,
as after startup. -/
def run_ticks (scores : List ℚ) : List Event × ℕ × ℕ :=
  monitor_run [] 0 0 scores

/-- Closed form for the save cadence: starting from a log of length
`l`, how many of the next `n` ticks satisfy the code's save condition
`len(events_log) % 10 == 0` (the length after a tick is
`min 50 (l + 1)`). -/
def savesAfter : ℕ → ℕ → ℕ
  | _, 0 => 0
  | l, n + 1 =>
      (if min 50 (l + 1) % 10 == 0 then 1 else 0) + savesAfter (min 50 (l + 1)) n

theorem log_event_events_log (log : List Event) (s : ℚ) :
    (log_event log s).events_log.length = min 50 (log.length + 1) := by
  simp [log_event]
  omega

theorem log_event_save_called (log : List Event) (s : ℚ) :
    (log_event log s).save_called = (min 50 (log.length + 1) % 10 == 0) := by
  simp [log_event]
  omega

theorem log_event_downtime_eq (log : List Event) (s : ℚ) :
    (log_event log s).downtime_saved =
      ((log_event log s).save_called && (get_status_from_risk s == "CRITICAL")) := rfl

/-- Counting invariant of the monitoring loop on a constant score:
the number of sensor-reading saves over the next `n` ticks is
`savesAfter` of the current log length, and the number of downtime
saves is that same number when the constant status is `"CRITICAL"`
and zero otherwise. -/
theorem monitor_run_counts (s : ℚ) :
    ∀ (n : ℕ) (log : List Event) (sv dt : ℕ),
      (monitor_run log sv dt (List.replicate n s)).2.1
          = sv + savesAfter log.length n ∧
        (monitor_run log sv dt (List.replicate n s)).2.2
          = dt + (if get_status_from_risk s = "CRITICAL"
              then savesAfter log.length n else 0) := by
  intro n
  induction n with
  | zero => intro log sv dt; simp [monitor_run, savesAfter]
  | succ n ih =>
      intro log sv dt
      have step : monitor_run log sv dt (List.replicate (n + 1) s)
          = monitor_run (log_event log s).events_log
              (sv + if (log_event log s).save_called then 1 else 0)
              (dt + if (log_event log s).downtime_saved then 1 else 0)
              (List.replicate n s) := rfl
      obtain ⟨ih1, ih2⟩ := ih (log_event log s).events_log
        (sv + if (log_event log s).save_called then 1 else 0)
        (dt + if (log_event log s).downtime_saved then 1 else 0)
      rw [step, ih1, ih2, log_event_events_log, log_event_downtime_eq,
        log_event_save_called, savesAfter]
      by_cases hcr : get_status_from_risk s = "CRITICAL" <;>
        cases hb : (min 50 (log.length + 1) % 10 == 0) <;>
        simp [hcr, hb] <;> omega

/-- C6: the persistence cadence is driven by the length of the
50-capped `events_log`, not by a tick counter. Across the first 30
ticks the gateway receives exactly 3 save calls (matching the spec's
scenario), but across 51 ticks it receives 6 — not the 5 that
"exactly every 10th tick" predicts — because once the log is capped
at 50 entries its length stays divisible by 10 and the code saves on
every subsequent tick, contradicting its own comment
"Save to database every 10th reading". -/
theorem save_cadence_breaks_after_fifty :
    (run_ticks (List.replicate 30 (0 : ℚ))).2.1 = 3 ∧
      (run_ticks (List.replicate 51 (0 : ℚ))).2.1 = 6 ∧
      ((List.range 51).filter (fun t => (t + 1) % 10 = 0)).length = 5 := by
  have h30 := (monitor_run_counts 0 30 [] 0 0).1
  have h51 := (monitor_run_counts 0 51 [] 0 0).1
  refine ⟨?_, ?_, by decide⟩
  · rw [run_ticks, h30]
    decide
  · rw [run_ticks, h51]
    decide

/-- C7 counterexample: on the very first tick a CRITICAL assessment
(score 0.9) produces no downtime event, because the downtime save is
nested inside the every-10th-save branch and `len(events_log) = 1`
is not divisible by 10. -/
theorem critical_tick_without_downtime_event :
    get_status_from_risk 0.9 = "CRITICAL" ∧
      (log_event [] 0.9).save_called = false ∧
      (log_event [] 0.9).downtime_saved = false := by
  have hs : (log_event [] 0.9).save_called = false := by
    rw [log_event_save_called]
    decide
  refine ⟨by norm_num [get_status_from_risk], hs, ?_⟩
  rw [log_event_downtime_eq, hs]
  simp

/-- C7 amended: a downtime event is created and persisted on exactly
the ticks where the periodic save condition holds AND the assessment
is CRITICAL; on those ticks there is no deduplication. Over 9
all-CRITICAL ticks no downtime event is emitted; over 50 such ticks 5
are; over 51 such ticks 6 are — the consecutive CRITICAL ticks 50 and
51 each emit one. -/
theorem downtime_event_only_on_save_ticks (log : List Event) (s : ℚ) :
    (log_event log s).downtime_saved =
        ((log_event log s).save_called && (get_status_from_risk s == "CRITICAL")) ∧
      (run_ticks (List.replicate 9 (0.9 : ℚ))).2.2 = 0 ∧
      (run_ticks (List.replicate 50 (0.9 : ℚ))).2.2 = 5 ∧
      (run_ticks (List.replicate 51 (0.9 : ℚ))).2.2 = 6 := by
  have hc : get_status_from_risk (0.9 : ℚ) = "CRITICAL" := by
    norm_num [get_status_from_risk]
  have h9 := (monitor_run_counts (0.9 : ℚ) 9 [] 0 0).2
  have h50 := (monitor_run_counts (0.9 : ℚ) 50 [] 0 0).2
  have h51 := (monitor_run_counts (0.9 : ℚ) 51 [] 0 0).2
  rw [hc] at h9 h50 h51
  simp only [if_pos rfl] at h9 h50 h51
  refine ⟨log_event_downtime_eq log s, ?_, ?_, ?_⟩
  · rw [run_ticks, h9]
    decide
  · rw [run_ticks, h50]
    decide
  · rw [run_ticks, h51]
    decide

/-- A live WebSocket connection as `ConnectionManager` sees it: an
identity plus whether `send_text` to it currently succeeds (a closed
peer raises). -/
structure Conn where
  id : ℕ
  send_ok : Bool
deriving DecidableEq

/-- `ConnectionManager.broadcast`, `app/core/ws_manager.py` lines
23-42. With no subscribers it returns at once. Otherwise it attempts
`send_text` on every member of `active_connections` in order, catching
each failure and collecting the failing connection in `to_remove`;
afterwards each collected connection is removed from the list with
`list.remove` (a `ValueError` for an absent element is swallowed,
matching `List.erase` on a missing element). The result is the new
active list together with the list of connections the message reached. -/
def broadcast (active : List Conn) : List Conn × List Conn :=
  if active.isEmpty then (active, [])
  else
    let delivered := active.filter (fun ws => ws.send_ok)
    let to_remove := active.filter (fun ws => !ws.send_ok)
    (to_remove.foldl (fun acc ws => acc.erase ws) active, delivered)

theorem count_foldl_erase (a : Conn) :
    ∀ (r l : List Conn),
      (r.foldl (fun acc x => acc.erase x) l).count a = l.count a - r.count a := by
  intro r
  induction r with
  | nil => simp
  | cons b r ih =>
      intro l
      rw [List.foldl_cons, ih, List.count_erase, List.count_cons]
      cases hba : b == a <;> simp [hba] <;> omega

/-- C8: whenever the subscriber list contains a connection `f` whose
send fails and a healthy connection `c`, `broadcast` removes `f` from
the active list, keeps `c` in it, and still delivers the message to
`c`; the function is total, so no exception reaches the caller. -/
theorem broadcast_removes_failed_keeps_healthy (active : List Conn) (f c : Conn)
    (hf : f ∈ active) (hfs : f.send_ok = false)
    (hc : c ∈ active) (hcs : c.send_ok = true) :
    f ∉ (broadcast active).1 ∧ c ∈ (broadcast active).2 ∧
      c ∈ (broadcast active).1 := by
  have hne : active.isEmpty = false := by
    cases active with
    | nil => cases hf
    | cons x t => rfl
  have hbr : broadcast active =
      ((active.filter (fun ws => !ws.send_ok)).foldl
          (fun acc ws => acc.erase ws) active,
        active.filter (fun ws => ws.send_ok)) := by
    simp [broadcast, hne]
  rw [hbr]
  refine ⟨?_, ?_, ?_⟩
  · apply List.not_mem_of_count_eq_zero
    rw [count_foldl_erase, List.count_filter]
    · omega
    · simp [hfs]
  · exact List.mem_filter.mpr ⟨hc, hcs⟩
  · apply List.count_pos_iff.mp
    rw [count_foldl_erase]
    have hzero : (active.filter (fun ws => !ws.send_ok)).count c = 0 := by
      apply List.count_eq_zero_of_not_mem
      intro hmem
      have := (List.mem_filter.mp hmem).2
      simp [hcs] at this
    have hpos : 0 < active.count c := List.count_pos_iff.mpr hc
    omega

/-- A subscriber whose peer has closed: its send fails. -/
def failingConn : Conn := ⟨1, false⟩

/-- A healthy subscriber. -/
def healthyConn : Conn := ⟨2, true⟩

/-- C8 witness: the broadcast theorem on the two-element subscriber
list of one failed and one healthy connection. -/
theorem broadcast_removes_failed_keeps_healthy_witness :
    failingConn ∉ (broadcast [failingConn, healthyConn]).1 ∧
      healthyConn ∈ (broadcast [failingConn, healthyConn]).2 ∧
      healthyConn ∈ (broadcast [failingConn, healthyConn]).1 :=
  broadcast_removes_failed_keeps_healthy [failingConn, healthyConn]
    failingConn healthyConn (by decide) rfl (by decide) rfl

/-- The result dictionary of `predict_downtime`, `app/ml/model.py`
lines 182-194: the keys `downtime_predicted`, `downtime_probability`
and `risk_level`. -/
structure PredictResult where
  downtime_predicted : Bool
  downtime_probability : ℚ
  risk_level : String
deriving DecidableEq

/-- What happens inside `predict_downtime`'s own `try`,
`app/ml/model.py` lines 165-194: the loaded model either supports
`predict_proba` and yields a class-1 probability `p` alongside its
prediction, or only supports `predict` (the probability is then the
prediction cast to float), or the load/predict raises and is caught by
the function's own `except`. -/
inductive ModelCall
  | proba (prediction : Bool) (p : ℚ)
  | plain (prediction : Bool)
  | error
deriving DecidableEq

/-- `predict_downtime`, `app/ml/model.py` lines 159-194, given the
behavior of the underlying model (an external artifact). The returned
probability is rounded to 3 digits; the risk level uses the unrounded
probability with strict `>` comparisons. An exception inside the
`try` does NOT propagate: the function returns the sentinel result
with probability 0.0 and risk level `"UNKNOWN"` as a normal value. -/
def predict_downtime (c : ModelCall) : PredictResult :=
  match c with
  | ModelCall.proba prediction p =>
      ⟨prediction, pyRound p 3,
        if p > 0.7 then "HIGH" else if p > 0.4 then "MEDIUM" else "LOW"⟩
  | ModelCall.plain prediction =>
      let dp : ℚ := if prediction then 1 else 0
      ⟨prediction, pyRound dp 3,
        if dp > 0.7 then "HIGH" else if dp > 0.4 then "MEDIUM" else "LOW"⟩
  | ModelCall.error => ⟨false, 0, "UNKNOWN"⟩

/-- Sensor data whose rule-based score is 0.4: the machine temperature
95 exceeds the critical threshold 90, every other channel sits in its
normal band. -/
def hotMachineData : SensorData :=
  mkSensorData ⟨22, "online"⟩ ⟨95, "online"⟩ ⟨55, "online"⟩
    ⟨1.5, "online"⟩ ⟨3.5, "online"⟩ ⟨75, "online"⟩

/-- C4 counterexample: an error caught inside `predict_downtime` is
returned as the sentinel probability 0.0 of a NORMAL result, so
`calculate_downtime_risk` reports the score 0 — not the rule-based
score, which for this state is 0.4. The original claim fails on every
ML failure that is caught inside `predict_downtime` rather than
raised into `calculate_downtime_risk`. -/
theorem ml_internal_error_not_rule_based_counterexample :
    (predict_downtime ModelCall.error).downtime_probability = 0 ∧
      (predict_downtime ModelCall.error).risk_level = "UNKNOWN" ∧
      calculate_downtime_risk hotMachineData 10
          (some (predict_downtime ModelCall.error).downtime_probability) = 0 ∧
      calculate_downtime_risk hotMachineData 10 none = 0.4 ∧
      calculate_downtime_risk hotMachineData 10
          (some (predict_downtime ModelCall.error).downtime_probability)
        ≠ calculate_downtime_risk hotMachineData 10 none := by
  have e0 : calculate_downtime_risk hotMachineData 10
      (some (predict_downtime ModelCall.error).downtime_probability) = 0 := by
    norm_num [calculate_downtime_risk, hotMachineData, mkSensorData,
      predict_downtime, min_def, max_def]
  have e1 : calculate_downtime_risk hotMachineData 10 none = 0.4 := by
    norm_num [calculate_downtime_risk, hotMachineData, mkSensorData,
      rule_based_risk, temperature_penalty, machine_temperature_penalty,
      humidity_penalty, vibration_penalty, current_penalty, shift_penalty,
      shift_of_hour, settings.temperature_critical_max,
      settings.machine_temperature_critical_max,
      settings.machine_temperature_warning_max,
      settings.machine_temperature_normal_min,
      settings.temperature_warning_max, settings.temperature_normal_min,
      settings.humidity_warning_max, settings.humidity_warning_min,
      settings.vibration_critical_max, settings.vibration_warning_max,
      settings.vibration_normal_max, settings.current_critical_max,
      settings.current_warning_max, min_def, max_def]
  exact ⟨rfl, rfl, e0, e1, by rw [e0, e1]; norm_num⟩

/-- C4 amended: the fall-back to the rule-based score happens exactly
when the ML path RAISES into the inner `except` of
`calculate_downtime_risk` (`ml = none`); then the returned assessment
is the clamped rule-based score, in `[0, 1]`, and no exception reaches
the caller (the function is total). An error caught inside
`predict_downtime` itself is not such a failure: it returns normally
with the sentinel probability 0.0, and the reported score is then
`min 1 (max 0 0) = 0`, whatever the rule-based score would have been. -/
theorem ml_fallback_only_on_raising_failures
    (t mt hu vb cu ld : ChannelEntry) (hour : ℕ) :
    calculate_downtime_risk (mkSensorData t mt hu vb cu ld) hour none =
        min 1 (max 0 (rule_based_risk t.value mt.value hu.value vb.value cu.value
          (shift_of_hour hour))) ∧
      0 ≤ calculate_downtime_risk (mkSensorData t mt hu vb cu ld) hour none ∧
      calculate_downtime_risk (mkSensorData t mt hu vb cu ld) hour none ≤ 1 ∧
      (predict_downtime ModelCall.error).downtime_probability = 0 ∧
      calculate_downtime_risk (mkSensorData t mt hu vb cu ld) hour
          (some (predict_downtime ModelCall.error).downtime_probability) = 0 := by
  refine ⟨rfl, ?_, ?_, rfl, ?_⟩ <;>
    simp only [calculate_downtime_risk, mkSensorData, predict_downtime] <;>
    norm_num

end PharmaDowntime
